import Mathlib

/-!
Shallow embedding of the simple_cl host-side OpenCL convenience layer
(`include/simple_cl.hpp`, `src/simple_cl.cpp`).

Machine integers (`std::size_t`, `uint64_t`, ...) are modelled as `ℕ` with an
explicit `% 2^64` wherever the C++ computation can wrap.  Raw pointers that can
be null (`cl_event`) are modelled as `Option ℕ` where `none` is the null
pointer.  Fallible C++ functions (ones that `throw`) are modelled as `Except`.
Device-API calls (`clWaitForEvents`, `clEnqueueMapBuffer`, ...) are external
collaborators: the embedding records the exact argument values the host code
passes to them, and, for `clWaitForEvents`, models the documented device-API
status (`CL_INVALID_VALUE` for an empty wait list, `CL_INVALID_EVENT` for a
wait list containing an invalid/null event object).
-/

namespace SimpleCL

/-- `SIZE_T_MOD = 2^64`: the modulus of `std::size_t` arithmetic. -/
def SIZE_T_MOD : ℕ := 2 ^ 64

/-- A `cl_event` handle; `none` models a null pointer. -/
abbrev CLEventHandle := Option ℕ

/-- Status codes of the external device API relevant to this embedding. -/
inductive CLStatus where
  | success
  | invalid_value
  | invalid_event
deriving DecidableEq, Repr

/-- Device-API model of `clWaitForEvents` (external collaborator): per the
device API contract it fails with `CL_INVALID_VALUE` when the wait list is
empty and with `CL_INVALID_EVENT` when the list contains an event that is not
a valid event object (a null handle is not a valid event object). -/
def clWaitForEvents (wait_list : List CLEventHandle) : CLStatus :=
  if wait_list.isEmpty then .invalid_value
  else if wait_list.all Option.isSome then .success
  else .invalid_event

/-- The `CL_EX` macro (`simple_cl_error.hpp:72`): throws a `CLException`
carrying the status code when the enclosed call does not return
`CL_SUCCESS`. -/
def CL_EX (status : CLStatus) : Except CLStatus Unit :=
  if status = .success then .ok () else .error status

/-- `simple_cl::cl::Event`: wraps one `cl_event` handle (`m_event`), which may
be null (e.g. after being moved from, `simple_cl.cpp:715-719`). -/
structure Event where
  m_event : CLEventHandle
deriving DecidableEq, Repr

/-- `Event::wait` (`simple_cl.cpp:742-745`): unconditionally wraps `m_event`
in a one-element list and passes it to `clWaitForEvents` under `CL_EX`.  There
is no null check on `m_event`. -/
def Event.wait (e : Event) : Except CLStatus Unit :=
  CL_EX (clWaitForEvents [e.m_event])

/-- The null-filtering dependency-collection loop that appears verbatim in
`wait_for_events` (`simple_cl.hpp:673-675`), in all four dependency-taking
`Program::operator()` overloads (`simple_cl.hpp:891-893`, `935-937`,
`964-966`, `1001-1003`), in `Buffer::write_bytes` / `Buffer::read_bytes` /
`Buffer::write` / `Buffer::read` dependency overloads (`simple_cl.hpp:1389-1391`,
`1400-1402`, `1451-1453`, `1474-1476`) and in the dependency overloads of
`Image::write` / `Image::read` (`simple_cl.hpp:1941-1943`, `1952-1954`):
`for(it) if(it->m_event) cache.push_back(it->m_event)`. -/
def collect_dep_handles (deps : List Event) : List CLEventHandle :=
  deps.foldl (fun cache e => if e.m_event.isSome then cache ++ [e.m_event] else cache) []

/-- `simple_cl::cl::wait_for_events` (`simple_cl.hpp:667-677`): clears the
event cache, collects the non-null handles, and issues one combined
`clWaitForEvents` call (via `Event::wait_for_events_`, `simple_cl.cpp:747-750`). -/
def wait_for_events (deps : List Event) : Except CLStatus Unit :=
  CL_EX (clWaitForEvents (collect_dep_handles deps))

/-- The dependency-collection loop of the dependency-taking
`Image::fill` overload (`simple_cl.hpp:2023-2030`):
`for(it) m_event_cache.push_back(it->m_event)` — unlike every other
dependency loop in the code base, it pushes the handle without the
`if(it->m_event)` null check. -/
def fill_dep_event_cache (deps : List Event) : List CLEventHandle :=
  deps.foldl (fun cache e => cache ++ [e.m_event]) []

/-! ## `simple_cl::util::calc_aligned_size` (`simple_cl.hpp:211-226`) -/

/-- `calc_aligned_size(size, alignment)` (`simple_cl.hpp:223-226`):
`size + ((alignment - (size & (alignment - 1))) & (alignment - 1))`, computed
in `std::size_t` arithmetic (the final addition can wrap modulo `2^64`; no
intermediate step can).  The templated overload (`simple_cl.hpp:211-215`) has
the same body. -/
def calc_aligned_size (size alignment : ℕ) : ℕ :=
  (size + ((alignment - (size &&& (alignment - 1))) &&& (alignment - 1))) % SIZE_T_MOD

/-! ## `simple_cl::cl::Buffer` (`simple_cl.cpp:753-867`) -/

/-- Host access policy (`simple_cl.hpp`, `enum class HostAccess`). -/
inductive HostAccess where
  | ReadWrite
  | ReadOnly
  | WriteOnly
  | NoAccess
deriving DecidableEq, Repr

/-- Errors thrown by buffer transfers: `std::out_of_range` on a failed bounds
check, `std::runtime_error` on an access-policy violation, `CLException` on a
failed device call. -/
inductive BufError where
  | out_of_range
  | runtime_error
  | cl_exception
deriving DecidableEq, Repr

/-- The map flag passed to `clEnqueueMapBuffer`. -/
inductive MapFlag where
  | map_read
  | map_write
  | map_write_invalidate
deriving DecidableEq, Repr

/-- The argument values `buf_write` / `buf_read` pass to the
`clEnqueueMapBuffer` device command. -/
structure MapBufferCmd where
  flag : MapFlag
  offset : ℕ
  length : ℕ
  wait_list : List CLEventHandle
deriving DecidableEq, Repr

/-- The state of a `simple_cl::cl::Buffer` relevant to transfers: `m_size`,
`m_flags.host_access` and `m_event_cache`. -/
structure Buffer where
  m_size : ℕ
  host_access : HostAccess
  m_event_cache : List CLEventHandle
deriving DecidableEq, Repr

/-- `Buffer::buf_write` (`simple_cl.cpp:810-826`).  Checks
`offset + length > m_size` (a `std::size_t` sum, wrapping modulo `2^64`),
then the host-access policy, then computes
`_offset = (length > 0 ? offset : 0)` and `_length = (length > 0 ? length : m_size)`
and issues the blocking `clEnqueueMapBuffer` command (followed by the unmap
whose event is returned).  The returned value here is the map command issued. -/
def Buffer.buf_write (b : Buffer) (length offset : ℕ) (invalidate : Bool) :
    Except BufError MapBufferCmd :=
  if (offset + length) % SIZE_T_MOD > b.m_size then
    .error .out_of_range
  else if b.host_access = .ReadOnly ∨ b.host_access = .NoAccess then
    .error .runtime_error
  else
    .ok { flag := if invalidate then .map_write_invalidate else .map_write
          offset := if length > 0 then offset else 0
          length := if length > 0 then length else b.m_size
          wait_list := b.m_event_cache }

/-- `Buffer::buf_read` (`simple_cl.cpp:828-844`): same structure as
`buf_write` with `CL_MAP_READ` and the write-only access check. -/
def Buffer.buf_read (b : Buffer) (length offset : ℕ) :
    Except BufError MapBufferCmd :=
  if (offset + length) % SIZE_T_MOD > b.m_size then
    .error .out_of_range
  else if b.host_access = .WriteOnly ∨ b.host_access = .NoAccess then
    .error .runtime_error
  else
    .ok { flag := .map_read
          offset := if length > 0 then offset else 0
          length := if length > 0 then length else b.m_size
          wait_list := b.m_event_cache }

/-- `Buffer::write_bytes` (no-dependency overload, `simple_cl.hpp:1376-1382`
region): clears `m_event_cache` and calls `buf_write`. -/
def Buffer.write_bytes (b : Buffer) (length offset : ℕ) (invalidate : Bool) :
    Except BufError MapBufferCmd :=
  Buffer.buf_write { b with m_event_cache := [] } length offset invalidate

/-- `Buffer::read_bytes` (no-dependency overload): clears `m_event_cache` and
calls `buf_read`. -/
def Buffer.read_bytes (b : Buffer) (length offset : ℕ) :
    Except BufError MapBufferCmd :=
  Buffer.buf_read { b with m_event_cache := [] } length offset

/-! ## `simple_cl::cl::Image` format algebra (`simple_cl.hpp:1499-2015`) -/

/-- `Image::ChannelBaseType` (`simple_cl.hpp:1505-1510`):
`Int = 0`, `UInt = 1`, `Float = 2`. -/
inductive ChannelBaseType where
  | int
  | uint
  | float
deriving DecidableEq, Repr

/-- The `uint8_t` value behind each `ChannelBaseType` enumerator. -/
def ChannelBaseType.code : ChannelBaseType → ℕ
  | .int => 0
  | .uint => 1
  | .float => 2

/-- `Image::ColorChannel` (`simple_cl.hpp:1515-1521`):
`R = 0`, `G = 1`, `B = 2`, `A = 3`. -/
inductive ColorChannel where
  | R
  | G
  | B
  | A
deriving DecidableEq, Repr

/-- The `uint8_t` value behind each `ColorChannel` enumerator. -/
def ColorChannel.code : ColorChannel → ℕ
  | .R => 0
  | .G => 1
  | .B => 2
  | .A => 3

/-- `Image::ImageType` (`simple_cl.hpp:1527-1534`). -/
inductive ImageType where
  | Image1D
  | Image2D
  | Image3D
  | Image1DArray
  | Image2DArray
deriving DecidableEq, Repr

/-- Device-API channel-order constants (`CL_R`, `CL_RG`, `CL_RGBA`, `CL_BGRA`,
`CL_sRGBA` from the OpenCL header). -/
def CL_R_CONST : ℕ := 0x10B0
def CL_RG_CONST : ℕ := 0x10B2
def CL_RGBA_CONST : ℕ := 0x10B5
def CL_BGRA_CONST : ℕ := 0x10B6
def CL_sRGBA_CONST : ℕ := 0x10C1

/-- `Image::ImageChannelOrder` (`simple_cl.hpp:1545-1552`): a `uint64_t` enum. -/
inductive ImageChannelOrder where
  | R
  | RG
  | RGBA
  | BGRA
  | sRGBA
deriving DecidableEq, Repr

/-- Bit-packing of one channel-order enumerator
(`simple_cl.hpp:1541-1543`): `[32 bits CL constant | 8 bits channel count |
4 bits 1st channel | 4 bits 2nd | 4 bits 3rd | 4 bits 4th | 8 bits unused]`. -/
def packChannelOrder (clconst count c0 c1 c2 c3 : ℕ) : ℕ :=
  (clconst <<< 32) ||| (count <<< 24) ||| (c0 <<< 20) ||| (c1 <<< 16) |||
    (c2 <<< 12) ||| (c3 <<< 8)

/-- The `uint64_t` value behind each `ImageChannelOrder` enumerator
(`simple_cl.hpp:1547-1551`). -/
def ImageChannelOrder.packed : ImageChannelOrder → ℕ
  | .R => packChannelOrder CL_R_CONST 1 0 0 0 0
  | .RG => packChannelOrder CL_RG_CONST 2 0 1 1 1
  | .RGBA => packChannelOrder CL_RGBA_CONST 4 0 1 2 3
  | .BGRA => packChannelOrder CL_BGRA_CONST 4 2 1 0 3
  | .sRGBA => packChannelOrder CL_sRGBA_CONST 4 0 1 2 3

/-- Device-API channel-type constants (from the OpenCL header). -/
def CL_SNORM_INT8_CONST : ℕ := 0x10D0
def CL_SNORM_INT16_CONST : ℕ := 0x10D1
def CL_UNORM_INT8_CONST : ℕ := 0x10D2
def CL_UNORM_INT16_CONST : ℕ := 0x10D3
def CL_SIGNED_INT8_CONST : ℕ := 0x10D7
def CL_SIGNED_INT16_CONST : ℕ := 0x10D8
def CL_SIGNED_INT32_CONST : ℕ := 0x10D9
def CL_UNSIGNED_INT8_CONST : ℕ := 0x10DA
def CL_UNSIGNED_INT16_CONST : ℕ := 0x10DB
def CL_UNSIGNED_INT32_CONST : ℕ := 0x10DC
def CL_HALF_FLOAT_CONST : ℕ := 0x10DD
def CL_FLOAT_CONST : ℕ := 0x10DE

/-- `Image::ImageChannelType` (`simple_cl.hpp:1562-1576`): a `uint64_t` enum. -/
inductive ImageChannelType where
  | SNORM_INT8
  | SNORM_INT16
  | UNORM_INT8
  | UNORM_INT16
  | INT8
  | INT16
  | INT32
  | UINT8
  | UINT16
  | UINT32
  | HALF
  | FLOAT
deriving DecidableEq, Repr

/-- Bit-packing of one channel-type enumerator (`simple_cl.hpp:1559-1560`):
`[32 bit CL constant | 16 bit size in bytes | 8 bit base type | 8 bit
normalized flag]`. -/
def packChannelType (clconst size base norm : ℕ) : ℕ :=
  (clconst <<< 32) ||| (size <<< 16) ||| (base <<< 8) ||| norm

/-- The `uint64_t` value behind each `ImageChannelType` enumerator
(`simple_cl.hpp:1564-1575`). -/
def ImageChannelType.packed : ImageChannelType → ℕ
  | .SNORM_INT8 => packChannelType CL_SNORM_INT8_CONST 1 ChannelBaseType.int.code 1
  | .SNORM_INT16 => packChannelType CL_SNORM_INT16_CONST 2 ChannelBaseType.int.code 1
  | .UNORM_INT8 => packChannelType CL_UNORM_INT8_CONST 1 ChannelBaseType.uint.code 1
  | .UNORM_INT16 => packChannelType CL_UNORM_INT16_CONST 2 ChannelBaseType.uint.code 1
  | .INT8 => packChannelType CL_SIGNED_INT8_CONST 1 ChannelBaseType.int.code 0
  | .INT16 => packChannelType CL_SIGNED_INT16_CONST 2 ChannelBaseType.int.code 0
  | .INT32 => packChannelType CL_SIGNED_INT32_CONST 4 ChannelBaseType.int.code 0
  | .UINT8 => packChannelType CL_UNSIGNED_INT8_CONST 1 ChannelBaseType.uint.code 0
  | .UINT16 => packChannelType CL_UNSIGNED_INT16_CONST 2 ChannelBaseType.uint.code 0
  | .UINT32 => packChannelType CL_UNSIGNED_INT32_CONST 4 ChannelBaseType.uint.code 0
  | .HALF => packChannelType CL_HALF_FLOAT_CONST 2 ChannelBaseType.float.code 0
  | .FLOAT => packChannelType CL_FLOAT_CONST 4 ChannelBaseType.float.code 0

/-- `Image::HostDataType` (`simple_cl.hpp:1630-1640`): a `uint16_t` enum
packed as `[8 bit type id | 4 bit size in bytes | 4 bit base type]`. -/
inductive HostDataType where
  | INT8
  | INT16
  | INT32
  | UINT8
  | UINT16
  | UINT32
  | HALF
  | FLOAT
deriving DecidableEq, Repr

/-- The `uint16_t` value behind each `HostDataType` enumerator
(`simple_cl.hpp:1632-1639`). -/
def HostDataType.packed : HostDataType → ℕ
  | .INT8 => (0 <<< 8) ||| (1 <<< 4) ||| ChannelBaseType.int.code
  | .INT16 => (1 <<< 8) ||| (2 <<< 4) ||| ChannelBaseType.int.code
  | .INT32 => (2 <<< 8) ||| (4 <<< 4) ||| ChannelBaseType.int.code
  | .UINT8 => (3 <<< 8) ||| (1 <<< 4) ||| ChannelBaseType.uint.code
  | .UINT16 => (4 <<< 8) ||| (2 <<< 4) ||| ChannelBaseType.uint.code
  | .UINT32 => (5 <<< 8) ||| (4 <<< 4) ||| ChannelBaseType.uint.code
  | .HALF => (6 <<< 8) ||| (2 <<< 4) ||| ChannelBaseType.float.code
  | .FLOAT => (7 <<< 8) ||| (4 <<< 4) ||| ChannelBaseType.float.code

/-- `Image::get_image_channel_type_size` (`simple_cl.hpp:1958-1961`):
`(type >> 16) & 0xFFFF`. -/
def get_image_channel_type_size (t : ImageChannelType) : ℕ :=
  (t.packed >>> 16) &&& 0xFFFF

/-- `Image::get_host_channel_type_size` (`simple_cl.hpp:1963-1966`):
`(type >> 4) & 0xF`. -/
def get_host_channel_type_size (t : HostDataType) : ℕ :=
  (t.packed >>> 4) &&& 0xF

/-- `Image::get_num_image_pixel_components` (`simple_cl.hpp:1968-1971`):
`(channel_order >> 24) & 0xFF`. -/
def get_num_image_pixel_components (o : ImageChannelOrder) : ℕ :=
  (o.packed >>> 24) &&& 0xFF

/-- `Image::get_image_channel_base_type` (`simple_cl.hpp:1988-1991`):
`(channel_type >> 8) & 0xFF`, cast back to `ChannelBaseType`; modelled as the
extracted numeric code. -/
def get_image_channel_base_type (t : ImageChannelType) : ℕ :=
  (t.packed >>> 8) &&& 0xFF

/-- `Image::get_host_channel_base_type` (`simple_cl.hpp:1993-1996`):
`channel_type & 0xF`, cast back to `ChannelBaseType`; modelled as the
extracted numeric code. -/
def get_host_channel_base_type (t : HostDataType) : ℕ :=
  t.packed &&& 0xF

/-- `Image::get_image_color_channel` (`simple_cl.hpp:1998-2001`):
`(channel_order >> (20 - index * 4)) & 0xF`, cast to `ColorChannel`; modelled
as the extracted numeric code. -/
def get_image_color_channel (o : ImageChannelOrder) (index : ℕ) : ℕ :=
  (o.packed >>> (20 - index * 4)) &&& 0xF

/-- `Image::is_image_channel_format_normalized_integer`
(`simple_cl.hpp:2003-2006`): `channel_type & 0xFF` as a `bool`. -/
def is_image_channel_format_normalized_integer (t : ImageChannelType) : Bool :=
  t.packed &&& 0xFF ≠ 0

/-- `Image::HostChannelOrder` (`simple_cl.hpp:1657-1661`): a channel count and
a `ColorChannel channels[4]` array.  The array is modelled as a total function
(the code only ever reads `channels[i]` for `i` below a device component
count, which is at most 4). -/
structure HostChannelOrder where
  num_channels : ℕ
  channels : ℕ → ColorChannel

/-- `Image::get_num_host_pixel_components` (`simple_cl.hpp:1973-1976`). -/
def get_num_host_pixel_components (o : HostChannelOrder) : ℕ :=
  o.num_channels

/-- `Image::HostPitch` (`simple_cl.hpp:1604-1608`). -/
structure HostPitch where
  row_pitch : ℕ
  slice_pitch : ℕ
deriving DecidableEq, Repr

/-- `Image::HostFormat` (`simple_cl.hpp:1685-1690`). -/
structure HostFormat where
  channel_order : HostChannelOrder
  channel_type : HostDataType
  pitch : HostPitch

/-- `Image::match_format` (`simple_cl.cpp:945-959`): base type equal, then
component count equal, then each host channel equal to the image channel at
the same index. -/
def match_format (ict : ImageChannelType) (ico : ImageChannelOrder)
    (format : HostFormat) : Bool :=
  if ¬(get_host_channel_base_type format.channel_type = get_image_channel_base_type ict) then
    false
  else if ¬(get_num_host_pixel_components format.channel_order = get_num_image_pixel_components ico) then
    false
  else
    (List.range format.channel_order.num_channels).all fun i =>
      decide ((format.channel_order.channels i).code = get_image_color_channel ico i)

/-! ## Image regions and the non-mapped transfer path
(`Image::img_write`, `simple_cl.cpp:1074-1134`;
`Image::img_read`, `simple_cl.cpp:1249-1308`) -/

/-- `Image::ImageOffset` (`simple_cl.hpp:1666-1671`). -/
structure ImageOffset where
  offset_width : ℕ
  offset_height : ℕ
  offset_depth : ℕ
deriving DecidableEq, Repr

/-- `Image::ImageDimensions` (`simple_cl.hpp:1587-1599`). -/
structure ImageDimensions where
  width : ℕ
  height : ℕ
  depth : ℕ
deriving DecidableEq, Repr

/-- `Image::ImageRegion` (`simple_cl.hpp:1676-1680`). -/
structure ImageRegion where
  offset : ImageOffset
  dimensions : ImageDimensions
deriving DecidableEq, Repr

/-- The part of `Image::ImageDesc` (`simple_cl.hpp:1613-1622`) that the
transfer paths read: type, dimensions, channel order/type and the host-access
policy from `flags`. -/
structure ImageDesc where
  itype : ImageType
  dimensions : ImageDimensions
  channel_order : ImageChannelOrder
  channel_type : ImageChannelType
  host_access : HostAccess

/-- Errors thrown by the image transfer paths (`std::runtime_error` with a
message, or a `CLException`); only the message matters here. -/
abbrev ImgError := String

/-- Host pixel size in bytes, as computed in all four transfer functions
(e.g. `simple_cl.cpp:1098-1103`):
`host_component_size * host_num_components`, a `std::size_t` product
(wraps modulo `2^64`). -/
def host_pixel_size (format : HostFormat) : ℕ :=
  (get_host_channel_type_size format.channel_type *
    get_num_host_pixel_components format.channel_order) % SIZE_T_MOD

/-- Effective host row pitch (e.g. `simple_cl.cpp:1106`):
the supplied value if non-zero, else the `std::size_t` product
`region_width * host_pixel_size` (wraps modulo `2^64`). -/
def effective_host_row_pitch (format : HostFormat) (region : ImageRegion) : ℕ :=
  if format.pitch.row_pitch ≠ 0 then format.pitch.row_pitch
  else (region.dimensions.width * host_pixel_size format) % SIZE_T_MOD

/-- Effective host slice pitch (e.g. `simple_cl.cpp:1109`):
the supplied value if non-zero, else the `std::size_t` product
`region_height * host_row_pitch` (wraps modulo `2^64`). -/
def effective_host_slice_pitch (format : HostFormat) (region : ImageRegion) : ℕ :=
  if format.pitch.slice_pitch ≠ 0 then format.pitch.slice_pitch
  else (region.dimensions.height * effective_host_row_pitch format region) % SIZE_T_MOD

/-- The shared validation prologue of `img_write` / `img_read`
(`simple_cl.cpp:1076-1087` resp. `1251-1262`): host-access policy, empty
region, region-bounds (three `std::size_t` sums, each wrapping modulo
`2^64`), and the zero-slice-pitch requirement for 1D/2D images.
`writing = true` selects the write-direction access check. -/
def region_checks (img : ImageDesc) (region : ImageRegion) (format : HostFormat)
    (writing : Bool) : Except ImgError Unit := do
  if writing ∧ (img.host_access = .NoAccess ∨ img.host_access = .ReadOnly) then
    throw "[Image]: Host is not allowed to write this image."
  if ¬writing ∧ (img.host_access = .NoAccess ∨ img.host_access = .WriteOnly) then
    throw "[Image]: Host is not allowed to read this image."
  if ¬(region.dimensions.width ≠ 0 ∧ region.dimensions.height ≠ 0 ∧
      region.dimensions.depth ≠ 0) then
    throw "[Image]: Transfer failed, region is empty."
  if (region.offset.offset_width + region.dimensions.width) % SIZE_T_MOD > img.dimensions.width ∨
      (region.offset.offset_height + region.dimensions.height) % SIZE_T_MOD > img.dimensions.height ∨
      (region.offset.offset_depth + region.dimensions.depth) % SIZE_T_MOD > img.dimensions.depth then
    throw "[Image]: Transfer failed. Input region exceeds image dimensions."
  if (img.itype = .Image1D ∨ img.itype = .Image2D) ∧ format.pitch.slice_pitch ≠ 0 then
    throw "[Image]: Slice pitch must be 0 for 1D or 2D images."
  return ()

/-- The host-pitch validation shared by all four transfer functions
(e.g. `simple_cl.cpp:1106-1111`); both comparisons are against `std::size_t`
products (wrapping modulo `2^64`). -/
def pitch_checks (format : HostFormat) (region : ImageRegion) : Except ImgError Unit := do
  if effective_host_row_pitch format region <
      (region.dimensions.width * host_pixel_size format) % SIZE_T_MOD then
    throw "[Image]: Row pitch must be >= region width * bytes per pixel."
  if effective_host_slice_pitch format region <
      (region.dimensions.height * effective_host_row_pitch format region) % SIZE_T_MOD then
    throw "[Image]: Row pitch must be >= height * host row pitch."
  return ()

/-- The argument values the non-mapped transfer path passes to
`clEnqueueWriteImage` / `clEnqueueReadImage`. -/
structure EnqueueImageCmd where
  blocking : Bool
  origin : ImageOffset
  region : ImageDimensions
  input_row_pitch : ℕ
  input_slice_pitch : ℕ
  wait_list : List CLEventHandle
deriving DecidableEq, Repr

/-- `Image::img_write` (`simple_cl.cpp:1074-1134`): validation, then
`match_format` (hard failure on mismatch), then one `clEnqueueWriteImage`
command whose slice-pitch argument is
`m_image_desc.type != ImageType::Image2D ? host_slice_pitch : 0`
(`simple_cl.cpp:1125`). -/
def img_write (img : ImageDesc) (cache : List CLEventHandle) (region : ImageRegion)
    (format : HostFormat) (blocking : Bool) : Except ImgError EnqueueImageCmd := do
  (region_checks img region format true).bind fun _ =>
  if ¬match_format img.channel_type img.channel_order format then
    throw "[Image]: Write failed. Host format doesn't match image format."
  else
  (pitch_checks format region).bind fun _ =>
  pure { blocking := blocking
         origin := region.offset
         region := region.dimensions
         input_row_pitch := effective_host_row_pitch format region
         input_slice_pitch :=
           if img.itype ≠ .Image2D then effective_host_slice_pitch format region else 0
         wait_list := cache }

/-- `Image::img_read` (`simple_cl.cpp:1249-1308`): validation, then
`match_format`, then one `clEnqueueReadImage` command; its slice-pitch
argument is `host_slice_pitch` unconditionally (`simple_cl.cpp:1300`). -/
def img_read (img : ImageDesc) (cache : List CLEventHandle) (region : ImageRegion)
    (format : HostFormat) (blocking : Bool) : Except ImgError EnqueueImageCmd := do
  (region_checks img region format false).bind fun _ =>
  if ¬match_format img.channel_type img.channel_order format then
    throw "[Image]: Read failed. Host format doesn't match image format."
  else
  (pitch_checks format region).bind fun _ =>
  pure { blocking := blocking
         origin := region.offset
         region := region.dimensions
         input_row_pitch := effective_host_row_pitch format region
         input_slice_pitch := effective_host_slice_pitch format region
         wait_list := cache }

/-! ## The mapped transfer path's three-tier copy strategy
(`Image::img_write_mapped`, `simple_cl.cpp:1019-1064`;
`Image::img_read_mapped`, `simple_cl.cpp:1194-1239`)

Host memory and the mapped device region are byte-addressed maps `ℕ → ℕ`
(one byte value per address).  `memcpy` is the usual functional model: the
destination bytes in `[doff, doff+n)` are replaced by the source bytes
starting at `soff`.  Each tier is the exact sequence of `memcpy` calls the
code performs, expressed as a list of copy descriptors executed in order. -/

/-- One `std::memcpy(dst + doff, src + soff, len)` call. -/
structure CopyOp where
  doff : ℕ
  soff : ℕ
  len : ℕ
deriving DecidableEq, Repr

/-- Functional model of `memcpy`: bytes of `dst` in `[doff, doff+n)` are
replaced by `src` bytes starting at `soff`. -/
def memcpy (dst src : ℕ → ℕ) (doff soff n : ℕ) : ℕ → ℕ :=
  fun a => if doff ≤ a ∧ a < doff + n then src (soff + (a - doff)) else dst a

/-- Execute a list of copy operations from `src` into `dst`, in order. -/
def run_copies (src dst : ℕ → ℕ) (ops : List CopyOp) : ℕ → ℕ :=
  ops.foldl (fun d op => memcpy d src op.doff op.soff op.len) dst

/-- The pitch/size parameters of one mapped transfer, after the driver map
call returned the device `row_pitch` and `slice_pitch`
(`slice_pitch` already replaced by `row_pitch * region_height` when the
driver reported 0, `simple_cl.cpp:1020`). -/
structure MappedTransfer where
  width : ℕ
  height : ℕ
  depth : ℕ
  pixel_size : ℕ
  row_pitch : ℕ
  slice_pitch : ℕ
  host_row_pitch : ℕ
  host_slice_pitch : ℕ
deriving DecidableEq, Repr

/-- `region_size = region_depth * host_slice_pitch` (`simple_cl.cpp:1024`),
a `std::size_t` product (wraps modulo `2^64`). -/
def MappedTransfer.region_size (p : MappedTransfer) : ℕ :=
  (p.depth * p.host_slice_pitch) % SIZE_T_MOD

/-- `row_size = min(row_pitch, host_row_pitch)` (`simple_cl.cpp:1022`). -/
def MappedTransfer.row_size (p : MappedTransfer) : ℕ :=
  min p.row_pitch p.host_row_pitch

/-- `slice_size = min(slice_pitch, host_slice_pitch)` (`simple_cl.cpp:1023`). -/
def MappedTransfer.slice_size (p : MappedTransfer) : ℕ :=
  min p.slice_pitch p.host_slice_pitch

/-- Tier 1 of the write direction (`simple_cl.cpp:1029-1032`): one
`memcpy(img_ptr, data_ptr, region_size)`. -/
def whole_region_ops (p : MappedTransfer) : List CopyOp :=
  [⟨0, 0, p.region_size⟩]

/-- Tier 2 of the write direction (`simple_cl.cpp:1035-1044`): one
`memcpy` of `slice_size` bytes per depth index; the device pointer advances
by `slice_pitch`, the host pointer by `host_slice_pitch`. -/
def slice_by_slice_ops (p : MappedTransfer) : List CopyOp :=
  (List.range p.depth).map fun z =>
    ⟨z * p.slice_pitch, z * p.host_slice_pitch, p.slice_size⟩

/-- Tier 3 of the write direction (`simple_cl.cpp:1046-1063`): one `memcpy`
of `row_size` bytes per (slice, row) pair; within a slice the device pointer
advances by `row_pitch` and the host pointer by `host_row_pitch`. -/
def row_by_row_ops (p : MappedTransfer) : List CopyOp :=
  ((List.range p.depth).map fun z =>
    (List.range p.height).map fun y =>
      (⟨z * p.slice_pitch + y * p.row_pitch,
        z * p.host_slice_pitch + y * p.host_row_pitch,
        p.row_size⟩ : CopyOp)).flatten

/-- The tier selection of `img_write_mapped` (`simple_cl.cpp:1029-1064`):
whole region if `host_slice_pitch == slice_pitch`, else slice-by-slice if
`host_row_pitch == row_pitch`, else row-by-row. -/
def img_write_mapped_ops (p : MappedTransfer) : List CopyOp :=
  if p.host_slice_pitch = p.slice_pitch then whole_region_ops p
  else if p.host_row_pitch = p.row_pitch then slice_by_slice_ops p
  else row_by_row_ops p

/-- The write-direction mapped copy: `data` is the host source, `img` the
mapped device region; returns the device region after the chosen tier ran. -/
def img_write_mapped_copy (data img : ℕ → ℕ) (p : MappedTransfer) : ℕ → ℕ :=
  run_copies data img (img_write_mapped_ops p)

/-- Swap destination and source of a copy: the read direction
(`simple_cl.cpp:1204-1239`) performs the same copies with `data_ptr` as
destination and `img_ptr` as source. -/
def CopyOp.swap (op : CopyOp) : CopyOp :=
  ⟨op.soff, op.doff, op.len⟩

/-- The tier selection of `img_read_mapped` (`simple_cl.cpp:1204-1239`):
identical loop structure to the write direction with the roles of the two
pointers exchanged. -/
def img_read_mapped_ops (p : MappedTransfer) : List CopyOp :=
  (img_write_mapped_ops p).map CopyOp.swap

/-- The read-direction mapped copy: `img` is the mapped device source,
`data` the host destination. -/
def img_read_mapped_copy (img data : ℕ → ℕ) (p : MappedTransfer) : ℕ → ℕ :=
  run_copies img data (img_read_mapped_ops p)

/-- Device-side byte address of byte `b` of pixel `(x, y, z)` of the mapped
region: `z * slice_pitch + y * row_pitch + x * pixel_size + b`. -/
def MappedTransfer.device_addr (p : MappedTransfer) (x y z b : ℕ) : ℕ :=
  z * p.slice_pitch + y * p.row_pitch + x * p.pixel_size + b

/-- Host-side byte address of byte `b` of pixel `(x, y, z)` of the host
region: `z * host_slice_pitch + y * host_row_pitch + x * pixel_size + b`. -/
def MappedTransfer.host_addr (p : MappedTransfer) (x y z b : ℕ) : ℕ :=
  z * p.host_slice_pitch + y * p.host_row_pitch + x * p.pixel_size + b

/-! ## The fill-color encoder (`Image::img_fill`, `simple_cl.cpp:1310-1415`) -/

/-- `Image::FillColor` (`simple_cl.hpp:1845-1867`): a 4-tuple of floats,
modelled as rationals (no float arithmetic is performed on them, they are
only stored or truncated). -/
structure FillColor where
  r : ℚ
  g : ℚ
  b : ℚ
  a : ℚ
deriving DecidableEq, Repr

/-- `FillColor::get(channel_index)` (`simple_cl.hpp:1860-1863`): reads
`values[channel_index]`.  Indices reaching this in `img_fill` are the 4-bit
channel ids of the packed channel orders, all of which are `< 4`. -/
def FillColor.get (c : FillColor) : ℕ → ℚ
  | 0 => c.r
  | 1 => c.g
  | 2 => c.b
  | _ => c.a

/-- `static_cast` of a float to an integer type: truncation toward zero
(defined for in-range values; out-of-range casts are undefined behaviour in
the source). -/
def float_to_int (q : ℚ) : ℤ :=
  if 0 ≤ q then ⌊q⌋ else ⌈q⌉

/-- `static_cast` of a float to an unsigned integer type of `w` bytes,
for in-range values: truncation, then the `w`-byte value. -/
def float_to_uint (w : ℕ) (q : ℚ) : ℕ :=
  (float_to_int q).toNat % 2 ^ (8 * w)

/-- `static_cast` of a float to a signed integer type of `w` bytes, for
in-range values; stored two's-complement bytes are those of
`v mod 2^(8w)`. -/
def float_to_sint (w : ℕ) (q : ℚ) : ℤ :=
  float_to_int q

/-- The `color_buffer` contents prepared by `img_fill`
(`simple_cl.cpp:1321-1396`): 4 raw floats, or 4 signed integers of a common
byte width, or 4 unsigned integers of a common byte width. -/
inductive ColorBuffer where
  | floats (c0 c1 c2 c3 : ℚ)
  | signed_ints (byte_width : ℕ) (c0 c1 c2 c3 : ℤ)
  | unsigned_ints (byte_width : ℕ) (c0 c1 c2 c3 : ℕ)
deriving DecidableEq, Repr

/-- The encoding step of `img_fill` (`simple_cl.cpp:1321-1396`) as a function
of the values the code extracts from the image channel type:
`base_type` (the numeric `ChannelBaseType` code), `type_size` (bytes) and the
`normalized_int` flag, plus the channel order used to pick color components.
`channel_indices[i] = get_image_color_channel(order, i)`
(`simple_cl.cpp:1329-1334`); slot `i` of the buffer receives
`color.get(channel_indices[i])` (`simple_cl.cpp:1338-1390`). -/
def encode_fill_color (base_type type_size : ℕ) (normalized_int : Bool)
    (color : FillColor) (order : ImageChannelOrder) : Except ImgError ColorBuffer :=
  let c := fun i => color.get (get_image_color_channel order i)
  if base_type = ChannelBaseType.float.code ∨ normalized_int then
    .ok (.floats (c 0) (c 1) (c 2) (c 3))
  else if base_type = ChannelBaseType.int.code then
    if type_size = 1 ∨ type_size = 2 ∨ type_size = 4 then
      .ok (.signed_ints type_size (float_to_sint type_size (c 0))
        (float_to_sint type_size (c 1)) (float_to_sint type_size (c 2))
        (float_to_sint type_size (c 3)))
    else .error "[Image]: Fill failed. Invalid channel type size"
  else
    if type_size = 1 ∨ type_size = 2 ∨ type_size = 4 then
      .ok (.unsigned_ints type_size (float_to_uint type_size (c 0))
        (float_to_uint type_size (c 1)) (float_to_uint type_size (c 2))
        (float_to_uint type_size (c 3)))
    else .error "[Image]: Fill failed. Invalid channel type size"

/-- The fill-color encoding performed by `img_fill` for an image with the
given channel type and order (`simple_cl.cpp:1325-1327` extract base type,
size and normalized flag from the packed channel type). -/
def img_fill_color_buffer (ict : ImageChannelType) (ico : ImageChannelOrder)
    (color : FillColor) : Except ImgError ColorBuffer :=
  encode_fill_color (get_image_channel_base_type ict)
    (get_image_channel_type_size ict)
    (is_image_channel_format_normalized_integer ict) color ico

/-- Little-endian byte expansion of a `w`-byte unsigned value. -/
def le_bytes (w v : ℕ) : List ℕ :=
  (List.range w).map fun k => v / 256 ^ k % 256

/-- The raw bytes stored in `color_buffer` for the integer encodings
(little-endian, two's complement for the signed case); the float bit patterns
are not modelled. -/
def ColorBuffer.stored_bytes : ColorBuffer → Option (List ℕ)
  | .floats _ _ _ _ => none
  | .signed_ints w c0 c1 c2 c3 =>
      some (le_bytes w (c0.emod (2 ^ (8 * w))).toNat ++
        le_bytes w (c1.emod (2 ^ (8 * w))).toNat ++
        le_bytes w (c2.emod (2 ^ (8 * w))).toNat ++
        le_bytes w (c3.emod (2 ^ (8 * w))).toNat)
  | .unsigned_ints w c0 c1 c2 c3 =>
      some (le_bytes w c0 ++ le_bytes w c1 ++ le_bytes w c2 ++ le_bytes w c3)

/-! ## Dispatch of the public `Image::write` / `Image::read` overloads
(`simple_cl.hpp:1924-1956`) -/

/-- `Image::ChannelDefaultValue` (`simple_cl.hpp:1646-1650`). -/
inductive ChannelDefaultValue where
  | Zeros
  | Ones
deriving DecidableEq, Repr

/-- The value placed in the `bool invalidate` parameter slot of
`img_write_mapped`: either a bool literal, or — as in the dependency-taking
`Image::write` overload (`simple_cl.hpp:1944`), which passes `default_value`
in that position — a `ChannelDefaultValue`. -/
inductive InvalidateArg where
  | of_bool (b : Bool)
  | of_default_value (d : ChannelDefaultValue)
deriving DecidableEq, Repr

/-- Which private implementation a public `Image::write` call reaches, and
with which argument values. -/
inductive ImageWriteImplCall where
  | mapped (invalidate : InvalidateArg) (default_value : ChannelDefaultValue)
  | direct (blocking : Bool) (default_value : ChannelDefaultValue)
deriving DecidableEq, Repr

/-- Which private implementation a public `Image::read` call reaches, and
with which argument values. -/
inductive ImageReadImplCall where
  | mapped (default_value : ChannelDefaultValue)
  | direct (blocking : Bool) (default_value : ChannelDefaultValue)
deriving DecidableEq, Repr

/-- `Image::write` without dependencies (`simple_cl.hpp:1924-1928`): clears
the event cache and calls `img_write(region, format, data, blocking,
default_value)`. -/
def Image.write_dispatch (blocking : Bool) (default_value : ChannelDefaultValue) :
    ImageWriteImplCall :=
  .direct blocking default_value

/-- `Image::write` with dependencies (`simple_cl.hpp:1936-1945`): collects
the non-null dependency handles and calls
`img_write_mapped(region, format, data, default_value)` — `blocking` is not
forwarded, and `default_value` lands in the `invalidate` parameter slot
(the mapped implementation's own `default_value` parameter keeps its default
`Zeros`). -/
def Image.write_deps_dispatch (deps : List Event) (blocking : Bool)
    (default_value : ChannelDefaultValue) : ImageWriteImplCall :=
  .mapped (.of_default_value default_value) .Zeros

/-- `Image::read` without dependencies (`simple_cl.hpp:1930-1934`): clears
the event cache and calls `img_read(region, format, data, blocking,
default_value)`. -/
def Image.read_dispatch (blocking : Bool) (default_value : ChannelDefaultValue) :
    ImageReadImplCall :=
  .direct blocking default_value

/-- `Image::read` with dependencies (`simple_cl.hpp:1947-1956`): collects the
non-null dependency handles and calls
`img_read_mapped(region, format, data, default_value)` — `blocking` is not
forwarded. -/
def Image.read_deps_dispatch (deps : List Event) (blocking : Bool)
    (default_value : ChannelDefaultValue) : ImageReadImplCall :=
  .mapped default_value

/-- The claim-side description of the fill-color encoding (spec §4.5 /
claim wording): float-or-normalized-integer formats store 4 raw floats;
otherwise a byte width other than 1, 2 or 4 is a fatal encoding error;
otherwise signed-integer formats store 4 values cast to the matching signed
width and unsigned-integer formats 4 values cast to the matching unsigned
width.  Stated over the same extracted parameters as `encode_fill_color`, to
be compared with it. -/
def spec_fill_encoding (base_type type_size : ℕ) (normalized_int : Bool)
    (color : FillColor) (order : ImageChannelOrder) : Except ImgError ColorBuffer :=
  let c := fun i => color.get (get_image_color_channel order i)
  if base_type = ChannelBaseType.float.code ∨ normalized_int then
    .ok (.floats (c 0) (c 1) (c 2) (c 3))
  else if type_size = 1 ∨ type_size = 2 ∨ type_size = 4 then
    if base_type = ChannelBaseType.int.code then
      .ok (.signed_ints type_size (float_to_sint type_size (c 0))
        (float_to_sint type_size (c 1)) (float_to_sint type_size (c 2))
        (float_to_sint type_size (c 3)))
    else
      .ok (.unsigned_ints type_size (float_to_uint type_size (c 0))
        (float_to_uint type_size (c 1)) (float_to_uint type_size (c 2))
        (float_to_uint type_size (c 3)))
  else .error "[Image]: Fill failed. Invalid channel type size"

/-! ## Concrete fixtures used to instantiate the theorems -/

/-- A host format matching an RGBA/UINT8 image: 4 channels `R, G, B, A`,
`UINT8` data, no pitch overrides. -/
def host_rgba_uint8 : HostFormat :=
  ⟨⟨4, fun i => if i = 0 then .R else if i = 1 then .G else if i = 2 then .B else .A⟩,
    .UINT8, ⟨0, 0⟩⟩

/-- A 4×4 2D RGBA/UINT8 image with read/write host access. -/
def test_image_2d : ImageDesc :=
  ⟨.Image2D, ⟨4, 4, 1⟩, .RGBA, .UINT8, .ReadWrite⟩

/-- The full region of a 4×4 2D image. -/
def full_region_4x4 : ImageRegion :=
  ⟨⟨0, 0, 0⟩, ⟨4, 4, 1⟩⟩

/-- A mapped transfer whose host and device slice pitches agree (4 = 4) while
the row pitches differ (host 1, device 2): a 3D transfer of a
width-1 × height-2 × depth-1 region of 1-byte pixels, with a tightly packed
host layout (row pitch 1, supplied slice pitch 4) and a device row pitch of
2. -/
def mismatched_row_pitch_transfer : MappedTransfer :=
  ⟨1, 2, 1, 1, 2, 4, 1, 4⟩

/-- A mapped transfer whose host and device pitches agree in both row and
slice: 2 × 2 × 2 region of 1-byte pixels, row pitch 2, slice pitch 4. -/
def matched_pitch_transfer : MappedTransfer :=
  ⟨2, 2, 2, 1, 2, 4, 2, 4⟩

/-! # Theorems -/

/-- C1: the claim states that `Event::wait()` on a token with a null
underlying handle returns immediately and without error.  In the code,
`wait()` (`simple_cl.cpp:742-745`) passes the null handle to
`clWaitForEvents` in a one-element wait list; a null handle is not a valid
event object, so the device call fails with `CL_INVALID_EVENT` and the
`CL_EX` wrapper throws a `CLException`.  A token with a valid handle waits
normally. -/
theorem C1_wait_null_handle_fails :
    Event.wait ⟨none⟩ = .error .invalid_event ∧
    Event.wait ⟨some 1⟩ = .ok () :=
  ⟨rfl, rfl⟩

/-- C2: the claim states that every dependency-taking operation filters out
null handles.  The dependency-collection loop of the dependency-taking
`Image::fill` overload (`simple_cl.hpp:2027-2028`) pushes the handle of a
null-handle token into the wait list unchanged, while the loop used by every
other dependency-taking operation drops it. -/
theorem C2_fill_dep_cache_keeps_null :
    fill_dep_event_cache [Event.mk none] = [none] ∧
    none ∈ fill_dep_event_cache [Event.mk none] ∧
    collect_dep_handles [Event.mk none] = [] ∧
    collect_dep_handles [Event.mk none, Event.mk (some 7)] = [some 7] := by
  refine ⟨rfl, ?_, rfl, rfl⟩
  decide

/-- C3 (counterexample): the claim quantifies over all `offset`, `length`
with `offset + length` greater than the buffer size, but the code's bounds
check (`simple_cl.cpp:812`, `830`) computes the sum in `std::size_t`
arithmetic.  With `offset = 2^64 - 1` and `length = 2` the mathematical sum
exceeds a 256-byte buffer's size, yet the wrapped sum is 1, the check passes,
and both `buf_write` and `buf_read` issue a device map command. -/
theorem C3_counterexample :
    2 ^ 64 - 1 + 2 > 256 ∧
    Buffer.buf_write ⟨256, .ReadWrite, []⟩ 2 (2 ^ 64 - 1) false =
      .ok ⟨.map_write, 2 ^ 64 - 1, 2, []⟩ ∧
    Buffer.buf_read ⟨256, .ReadWrite, []⟩ 2 (2 ^ 64 - 1) =
      .ok ⟨.map_read, 2 ^ 64 - 1, 2, []⟩ := by
  refine ⟨by norm_num, rfl, rfl⟩

/-- C3 (amended): for every buffer and all `offset`, `length` whose sum does
not overflow `std::size_t`, if `offset + length` exceeds the allocation size
then both `buf_write` and `buf_read` throw `std::out_of_range` and issue no
device command. -/
theorem C3_amended_bounds_check (b : Buffer) (length offset : ℕ) (invalidate : Bool)
    (hsum : offset + length < SIZE_T_MOD) (h : offset + length > b.m_size) :
    Buffer.buf_write b length offset invalidate = .error .out_of_range ∧
    Buffer.buf_read b length offset = .error .out_of_range := by
  unfold Buffer.buf_write Buffer.buf_read
  rw [Nat.mod_eq_of_lt hsum]
  exact ⟨if_pos h, if_pos h⟩

/-- Witness for C3 (amended) at a 256-byte read/write buffer with
`offset = 200`, `length = 100`. -/
theorem C3_amended_bounds_check_witness :
    Buffer.buf_write ⟨256, .ReadWrite, []⟩ 100 200 false = .error .out_of_range ∧
    Buffer.buf_read ⟨256, .ReadWrite, []⟩ 100 200 = .error .out_of_range :=
  C3_amended_bounds_check ⟨256, .ReadWrite, []⟩ 100 200 false
    (by norm_num [SIZE_T_MOD]) (by norm_num)

/-- C4 (counterexample): the claim states that with `length == 0` the offset
is ignored and the whole buffer is transferred *for every value of offset*.
The bounds check (`simple_cl.cpp:812`, `830`) runs before the
`length == 0` convention is applied, so `offset = 300` on a 256-byte buffer
throws `std::out_of_range` instead of transferring the whole buffer. -/
theorem C4_counterexample :
    Buffer.write_bytes ⟨256, .ReadWrite, []⟩ 0 300 false = .error .out_of_range ∧
    Buffer.read_bytes ⟨256, .ReadWrite, []⟩ 0 300 = .error .out_of_range :=
  ⟨rfl, rfl⟩

/-- C4 (amended): for `length == 0` and every `offset ≤ allocation_size`, the
offset is ignored and the whole buffer is transferred: the map command covers
bytes `[0, m_size)`; offsets greater than the allocation size still fail the
bounds check. -/
theorem C4_amended_zero_length (b : Buffer) (offset : ℕ) (invalidate : Bool)
    (hoff : offset ≤ b.m_size) (hsize : b.m_size < SIZE_T_MOD)
    (hacc : b.host_access = .ReadWrite) :
    Buffer.write_bytes b 0 offset invalidate =
      .ok ⟨if invalidate then .map_write_invalidate else .map_write, 0, b.m_size, []⟩ ∧
    Buffer.read_bytes b 0 offset = .ok ⟨.map_read, 0, b.m_size, []⟩ := by
  have hmod : offset % SIZE_T_MOD = offset :=
    Nat.mod_eq_of_lt (by omega)
  unfold Buffer.write_bytes Buffer.read_bytes Buffer.buf_write Buffer.buf_read
  simp [hmod, Nat.not_lt.mpr hoff, hacc]

/-- Witness for C4 (amended) at a 256-byte read/write buffer with
`offset = 10`. -/
theorem C4_amended_zero_length_witness :
    Buffer.write_bytes ⟨256, .ReadWrite, []⟩ 0 10 false =
      .ok ⟨if false then .map_write_invalidate else .map_write, 0, 256, []⟩ ∧
    Buffer.read_bytes ⟨256, .ReadWrite, []⟩ 0 10 = .ok ⟨.map_read, 0, 256, []⟩ :=
  C4_amended_zero_length ⟨256, .ReadWrite, []⟩ 10 false (by norm_num)
    (by norm_num [SIZE_T_MOD]) rfl

/-- C5: `match_format` (`simple_cl.cpp:945-959`) returns `true` exactly when
the host base category code equals the device base category code, the host
component count equals the device component count, and each host component
identifier equals the device component identifier at the same position. -/
theorem C5_match_format_iff (ict : ImageChannelType) (ico : ImageChannelOrder)
    (format : HostFormat) :
    match_format ict ico format = true ↔
      (get_host_channel_base_type format.channel_type =
          get_image_channel_base_type ict ∧
        get_num_host_pixel_components format.channel_order =
          get_num_image_pixel_components ico ∧
        ∀ i < format.channel_order.num_channels,
          (format.channel_order.channels i).code = get_image_color_channel ico i) := by
  unfold match_format
  by_cases h1 : get_host_channel_base_type format.channel_type =
      get_image_channel_base_type ict
  · by_cases h2 : get_num_host_pixel_components format.channel_order =
        get_num_image_pixel_components ico
    · simp [h1, h2, List.all_eq_true, List.mem_range]
    · simp [h1, h2]
  · simp [h1]

/-- C9: the dependency-taking `Image::write` / `Image::read` overloads
(`simple_cl.hpp:1936-1956`) always dispatch to the mapped implementations and
do not forward `blocking`; the dependency-taking write places its
`default_value` argument in the mapped implementation's `invalidate`
parameter slot; the overloads without dependencies dispatch to the direct
enqueue implementations and forward `blocking`. -/
theorem C9_overload_dispatch (deps : List Event) (blocking other_blocking : Bool)
    (dv : ChannelDefaultValue) :
    Image.write_deps_dispatch deps blocking dv =
      .mapped (.of_default_value dv) .Zeros ∧
    Image.read_deps_dispatch deps blocking dv = .mapped dv ∧
    Image.write_deps_dispatch deps blocking dv =
      Image.write_deps_dispatch deps other_blocking dv ∧
    Image.read_deps_dispatch deps blocking dv =
      Image.read_deps_dispatch deps other_blocking dv ∧
    Image.write_dispatch blocking dv = .direct blocking dv ∧
    Image.read_dispatch blocking dv = .direct blocking dv :=
  ⟨rfl, rfl, rfl, rfl, rfl, rfl⟩

/-- C10: for every size `s < 2^64` and every power-of-two alignment
`a = 2^k` with `k < 64`, `calc_aligned_size s a` equals the smallest multiple
of `a` that is `≥ s`, reduced modulo `2^64`; in particular the result is `s`
itself when `s` is already a multiple of `a`. -/
theorem C10_calc_aligned_size (s a k : ℕ) (ha : a = 2 ^ k) (hk : k < 64)
    (hs : s < SIZE_T_MOD) :
    a ∣ a * ((s + a - 1) / a) ∧
    s ≤ a * ((s + a - 1) / a) ∧
    (∀ m, a ∣ m → s ≤ m → a * ((s + a - 1) / a) ≤ m) ∧
    calc_aligned_size s a = a * ((s + a - 1) / a) % SIZE_T_MOD ∧
    (a ∣ s → calc_aligned_size s a = s) := by
  subst ha
  have hapos : 0 < 2 ^ k := Nat.pos_pow_of_pos k (by norm_num)
  set r := s % 2 ^ k with hr_def
  set q := s / 2 ^ k with hq_def
  have hr_lt : r < 2 ^ k := Nat.mod_lt _ hapos
  have hqr : 2 ^ k * q + r = s := Nat.div_add_mod s (2 ^ k)
  have hland : s &&& (2 ^ k - 1) = r := Nat.and_pow_two_sub_one_eq_mod s k
  have hcalc_unfold : calc_aligned_size s (2 ^ k) =
      (s + ((2 ^ k - r) &&& (2 ^ k - 1))) % SIZE_T_MOD := by
    unfold calc_aligned_size
    rw [hland]
  by_cases hr0 : r = 0
  · -- s is already a multiple of the alignment
    have hdiv : (s + 2 ^ k - 1) / 2 ^ k = q := by
      have hs_eq : s = 2 ^ k * q := by omega
      have : s + 2 ^ k - 1 = 2 ^ k * q + (2 ^ k - 1) := by omega
      rw [this, Nat.mul_add_div hapos, Nat.div_eq_of_lt (by omega)]
      omega
    have hM : 2 ^ k * ((s + 2 ^ k - 1) / 2 ^ k) = s := by
      rw [hdiv]; omega
    have hpad : (2 ^ k - r) &&& (2 ^ k - 1) = 0 := by
      rw [hr0, Nat.sub_zero, Nat.and_pow_two_sub_one_eq_mod, Nat.mod_self]
    have hcalc : calc_aligned_size s (2 ^ k) = s := by
      rw [hcalc_unfold, hpad, Nat.add_zero, Nat.mod_eq_of_lt hs]
    refine ⟨⟨q, hdiv ▸ rfl⟩, by omega, ?_, ?_, fun _ => hcalc⟩
    · intro m _ hm
      omega
    · rw [hcalc, hM, Nat.mod_eq_of_lt hs]
  · -- s is strictly between two multiples
    have hdiv : (s + 2 ^ k - 1) / 2 ^ k = q + 1 := by
      have : s + 2 ^ k - 1 = 2 ^ k * (q + 1) + (r - 1) := by
        rw [Nat.mul_add, Nat.mul_one]; omega
      rw [this, Nat.mul_add_div hapos, Nat.div_eq_of_lt (by omega)]
    have hM : 2 ^ k * ((s + 2 ^ k - 1) / 2 ^ k) = s + (2 ^ k - r) := by
      rw [hdiv, Nat.mul_add, Nat.mul_one]; omega
    have hpad : (2 ^ k - r) &&& (2 ^ k - 1) = 2 ^ k - r := by
      rw [Nat.and_pow_two_sub_one_eq_mod, Nat.mod_eq_of_lt (by omega)]
    have hcalc : calc_aligned_size s (2 ^ k) = (s + (2 ^ k - r)) % SIZE_T_MOD := by
      rw [hcalc_unfold, hpad]
    refine ⟨⟨q + 1, hdiv ▸ rfl⟩, by omega, ?_, by rw [hcalc, hM], ?_⟩
    · intro m hdvd hm
      rw [hdiv]
      obtain ⟨t, ht⟩ := hdvd
      subst ht
      have hqt : q < t := by
        rcases Nat.lt_or_ge q t with h | h
        · exact h
        · exfalso
          have h2 : 2 ^ k * t ≤ 2 ^ k * q := Nat.mul_le_mul_left _ h
          omega
      exact Nat.mul_le_mul_left _ hqt
    · intro hdvd
      exfalso
      exact hr0 (Nat.dvd_iff_mod_eq_zero.mp hdvd)

/-- Witness for C10 at `s = 5`, `a = 4 = 2^2`: the smallest multiple of 4
that is `≥ 5` is `8`. -/
theorem C10_calc_aligned_size_witness :
    4 ∣ 4 * ((5 + 4 - 1) / 4) ∧
    5 ≤ 4 * ((5 + 4 - 1) / 4) ∧
    (∀ m, 4 ∣ m → 5 ≤ m → 4 * ((5 + 4 - 1) / 4) ≤ m) ∧
    calc_aligned_size 5 4 = 4 * ((5 + 4 - 1) / 4) % SIZE_T_MOD ∧
    (4 ∣ 5 → calc_aligned_size 5 4 = 5) :=
  C10_calc_aligned_size 5 4 2 (by norm_num) (by norm_num) (by norm_num [SIZE_T_MOD])

/-- C7: the fill-color encoding of `img_fill` (`simple_cl.cpp:1321-1396`)
agrees with the claim's three-branch description on every input (floats for
float-or-normalized formats, signed casts of the matching 1/2/4-byte width
for signed-integer formats, unsigned casts for unsigned-integer formats, a
fatal error for any other integer byte width), and in particular an
RGBA/UINT8 fill with color components `(255, 0, 0, 255)` stores the raw
pixel bytes `{255, 0, 0, 255}`. -/
theorem C7_fill_encoding :
    (∀ (base_type type_size : ℕ) (normalized_int : Bool) (color : FillColor)
        (order : ImageChannelOrder),
      encode_fill_color base_type type_size normalized_int color order =
        spec_fill_encoding base_type type_size normalized_int color order) ∧
    img_fill_color_buffer .UINT8 .RGBA ⟨255, 0, 0, 255⟩ =
      .ok (.unsigned_ints 1 255 0 0 255) ∧
    (ColorBuffer.unsigned_ints 1 255 0 0 255).stored_bytes =
      some [255, 0, 0, 255] := by
  refine ⟨?_, ?_, rfl⟩
  · intro base_type type_size normalized_int color order
    unfold encode_fill_color spec_fill_encoding
    split_ifs <;> rfl
  · rfl

/-- C8 (counterexample): the claim states that on the non-mapped path *both*
the write and the read direction pass a zero slice pitch for 2D images.  For
a 4×4 2D RGBA/UINT8 image, `img_write` (`simple_cl.cpp:1125`) does pass 0,
but `img_read` (`simple_cl.cpp:1300`) passes the computed host slice pitch
`4 rows * 16 bytes = 64`, which is not zero. -/
theorem C8_counterexample :
    img_write test_image_2d [] full_region_4x4 host_rgba_uint8 true =
      .ok ⟨true, ⟨0, 0, 0⟩, ⟨4, 4, 1⟩, 16, 0, []⟩ ∧
    img_read test_image_2d [] full_region_4x4 host_rgba_uint8 true =
      .ok ⟨true, ⟨0, 0, 0⟩, ⟨4, 4, 1⟩, 16, 64, []⟩ ∧
    (64 : ℕ) ≠ 0 := by
  refine ⟨rfl, rfl, by norm_num⟩

/-- C8 (amended): on the non-mapped path for a 2D image, the write direction
passes slice pitch 0 to the device copy command, while the read direction
passes the computed effective host slice pitch unconditionally (for a 2D
image the `std::size_t`-wrapped product of the region height and the
effective row pitch, when no slice pitch is supplied). -/
theorem C8_amended_slice_pitch (img : ImageDesc) (cache : List CLEventHandle)
    (region : ImageRegion) (format : HostFormat) (blocking : Bool)
    (h2d : img.itype = .Image2D) :
    (∀ cmd, img_write img cache region format blocking = .ok cmd →
      cmd.input_slice_pitch = 0) ∧
    (∀ cmd, img_read img cache region format blocking = .ok cmd →
      cmd.input_slice_pitch = effective_host_slice_pitch format region) := by
  constructor <;> intro cmd h
  · unfold img_write at h
    cases hr : region_checks img region format true with
    | error e => rw [hr] at h; exact absurd h (by simp [Except.bind])
    | ok u =>
      rw [hr] at h
      simp only [Except.bind] at h
      split_ifs at h with hmf hty
      · exact absurd h2d hty
      · cases hp : pitch_checks format region with
        | error e => rw [hp] at h; exact absurd h (by simp [Except.bind])
        | ok v =>
          rw [hp] at h
          simp only [Except.bind, pure, Except.pure, Except.ok.injEq] at h
          subst h
          rfl
  · unfold img_read at h
    cases hr : region_checks img region format false with
    | error e => rw [hr] at h; exact absurd h (by simp [Except.bind])
    | ok u =>
      rw [hr] at h
      simp only [Except.bind] at h
      split_ifs at h
      cases hp : pitch_checks format region with
      | error e => rw [hp] at h; exact absurd h (by simp [Except.bind])
      | ok v =>
        rw [hp] at h
        simp only [Except.bind, pure, Except.pure, Except.ok.injEq] at h
        subst h
        rfl

/-- Witness for C8 (amended) at the 4×4 2D RGBA/UINT8 image fixture. -/
theorem C8_amended_slice_pitch_witness :
    (∀ cmd, img_write test_image_2d [] full_region_4x4 host_rgba_uint8 true =
      .ok cmd → cmd.input_slice_pitch = 0) ∧
    (∀ cmd, img_read test_image_2d [] full_region_4x4 host_rgba_uint8 true =
      .ok cmd → cmd.input_slice_pitch =
        effective_host_slice_pitch host_rgba_uint8 full_region_4x4) :=
  C8_amended_slice_pitch test_image_2d [] full_region_4x4 host_rgba_uint8 true rfl

/-- Executing a list of copies whose destination and source offsets coincide
writes `src a` to every address `a` covered by at least one copy and leaves
every other address unchanged. -/
theorem run_copies_eq_src_of_self_aligned (src : ℕ → ℕ) (ops : List CopyOp)
    (halign : ∀ op ∈ ops, op.doff = op.soff) (dst : ℕ → ℕ) (a : ℕ) :
    run_copies src dst ops a =
      if ∃ op ∈ ops, op.doff ≤ a ∧ a < op.doff + op.len then src a else dst a := by
  induction ops generalizing dst with
  | nil => simp [run_copies]
  | cons op t ih =>
    have hop : op.doff = op.soff := halign op (List.mem_cons_self _ _)
    have ht : ∀ o ∈ t, o.doff = o.soff := fun o ho => halign o (List.mem_cons_of_mem _ ho)
    have hstep : run_copies src dst (op :: t) a =
        run_copies src (memcpy dst src op.doff op.soff op.len) t a := rfl
    rw [hstep, ih ht]
    by_cases hc : ∃ o ∈ t, o.doff ≤ a ∧ a < o.doff + o.len
    · obtain ⟨o, ho, hcov⟩ := hc
      rw [if_pos ⟨o, ho, hcov⟩, if_pos ⟨o, List.mem_cons_of_mem _ ho, hcov⟩]
    · rw [if_neg hc]
      unfold memcpy
      by_cases hcov : op.doff ≤ a ∧ a < op.doff + op.len
      · rw [if_pos hcov, if_pos ⟨op, List.mem_cons_self _ _, hcov⟩, ← hop,
          Nat.add_sub_cancel' hcov.1]
      · have hnone : ¬∃ o ∈ op :: t, o.doff ≤ a ∧ a < o.doff + o.len := by
          rintro ⟨o, ho, hcov2⟩
          rcases List.mem_cons.mp ho with rfl | ho2
          · exact hcov hcov2
          · exact hc ⟨o, ho2, hcov2⟩
        rw [if_neg hcov, if_neg hnone]

/-- C6 (amended): when the host row pitch equals the device row pitch *and*
the host slice pitch equals the device slice pitch, *and* the whole-region
copy length `depth * host_slice_pitch` does not overflow `std::size_t`, host
and device byte addresses of every region pixel coincide, and all three copy
tiers of the mapped transfer path — whole-region, slice-by-slice and
row-by-row — write the host byte to every device pixel byte (write
direction), so the tiers are observationally equivalent on the transferred
pixels; the tier actually chosen by the code, and the read direction, agree
as well.  When only the slice pitches match but the row pitches differ, the
whole-region tier (still taken by the code) is not equivalent to the
row-by-row tier (see the counterexample); likewise, when
`depth * host_slice_pitch` overflows, the tier-1 `memcpy` length wraps and
the tiers disagree. -/
theorem C6_amended_tier_equivalence (p : MappedTransfer) (data img : ℕ → ℕ)
    (x y z b : ℕ) (hx : x < p.width) (hy : y < p.height) (hz : z < p.depth)
    (hb : b < p.pixel_size)
    (hrow : p.host_row_pitch = p.row_pitch)
    (hslice : p.host_slice_pitch = p.slice_pitch)
    (hrow_min : p.width * p.pixel_size ≤ p.row_pitch)
    (hslice_min : p.height * p.row_pitch ≤ p.slice_pitch)
    (hno_wrap : p.depth * p.host_slice_pitch < SIZE_T_MOD) :
    p.device_addr x y z b = p.host_addr x y z b ∧
    run_copies data img (whole_region_ops p) (p.device_addr x y z b) =
      data (p.device_addr x y z b) ∧
    run_copies data img (slice_by_slice_ops p) (p.device_addr x y z b) =
      data (p.device_addr x y z b) ∧
    run_copies data img (row_by_row_ops p) (p.device_addr x y z b) =
      data (p.device_addr x y z b) ∧
    img_write_mapped_copy data img p (p.device_addr x y z b) =
      data (p.device_addr x y z b) ∧
    img_read_mapped_copy img data p (p.device_addr x y z b) =
      img (p.device_addr x y z b) := by
  have haddr : p.device_addr x y z b = p.host_addr x y z b := by
    unfold MappedTransfer.device_addr MappedTransfer.host_addr
    rw [hrow, hslice]
  have hrow_off : x * p.pixel_size + b < p.row_pitch := by
    have h1 : x * p.pixel_size + b < (x + 1) * p.pixel_size := by
      rw [Nat.succ_mul]; omega
    have h2 : (x + 1) * p.pixel_size ≤ p.width * p.pixel_size :=
      Nat.mul_le_mul_right _ hx
    omega
  have hslice_off : y * p.row_pitch + (x * p.pixel_size + b) < p.slice_pitch := by
    have h1 : (y + 1) * p.row_pitch ≤ p.height * p.row_pitch :=
      Nat.mul_le_mul_right _ hy
    rw [Nat.succ_mul] at h1
    omega
  have hregion : p.device_addr x y z b < p.depth * p.slice_pitch := by
    have h1 : (z + 1) * p.slice_pitch ≤ p.depth * p.slice_pitch :=
      Nat.mul_le_mul_right _ hz
    rw [Nat.succ_mul] at h1
    unfold MappedTransfer.device_addr
    omega
  have halign_whole : ∀ op ∈ whole_region_ops p, op.doff = op.soff := by
    intro op hop
    rcases List.mem_singleton.mp hop with rfl
    rfl
  have halign_slice : ∀ op ∈ slice_by_slice_ops p, op.doff = op.soff := by
    intro op hop
    obtain ⟨w, _, rfl⟩ := List.mem_map.mp hop
    show w * p.slice_pitch = w * p.host_slice_pitch
    rw [hslice]
  have halign_row : ∀ op ∈ row_by_row_ops p, op.doff = op.soff := by
    intro op hop
    obtain ⟨l, hl, hopl⟩ := List.mem_flatten.mp hop
    obtain ⟨w, _, rfl⟩ := List.mem_map.mp hl
    obtain ⟨v, _, rfl⟩ := List.mem_map.mp hopl
    show w * p.slice_pitch + v * p.row_pitch =
      w * p.host_slice_pitch + v * p.host_row_pitch
    rw [hslice, hrow]
  have hcov_whole : p.device_addr x y z b < 0 + p.region_size := by
    unfold MappedTransfer.region_size
    rw [Nat.mod_eq_of_lt hno_wrap, hslice]
    omega
  have hcov_slice_lo : z * p.slice_pitch ≤ p.device_addr x y z b := by
    unfold MappedTransfer.device_addr
    omega
  have hcov_slice_hi : p.device_addr x y z b < z * p.slice_pitch + p.slice_size := by
    unfold MappedTransfer.slice_size MappedTransfer.device_addr
    rw [hslice, Nat.min_self]
    omega
  have hcov_row_lo : z * p.slice_pitch + y * p.row_pitch ≤ p.device_addr x y z b := by
    unfold MappedTransfer.device_addr
    omega
  have hcov_row_hi : p.device_addr x y z b <
      z * p.slice_pitch + y * p.row_pitch + p.row_size := by
    unfold MappedTransfer.row_size MappedTransfer.device_addr
    rw [hrow, Nat.min_self]
    omega
  have hwhole : run_copies data img (whole_region_ops p) (p.device_addr x y z b) =
      data (p.device_addr x y z b) := by
    rw [run_copies_eq_src_of_self_aligned data _ halign_whole,
      if_pos ⟨⟨0, 0, p.region_size⟩, List.mem_singleton.mpr rfl,
        Nat.zero_le _, hcov_whole⟩]
  have hslice_tier : run_copies data img (slice_by_slice_ops p)
      (p.device_addr x y z b) = data (p.device_addr x y z b) := by
    rw [run_copies_eq_src_of_self_aligned data _ halign_slice,
      if_pos ⟨⟨z * p.slice_pitch, z * p.host_slice_pitch, p.slice_size⟩,
        List.mem_map_of_mem _ (List.mem_range.mpr hz),
        hcov_slice_lo, hcov_slice_hi⟩]
  have hrow_tier : run_copies data img (row_by_row_ops p)
      (p.device_addr x y z b) = data (p.device_addr x y z b) := by
    rw [run_copies_eq_src_of_self_aligned data _ halign_row,
      if_pos ⟨⟨z * p.slice_pitch + y * p.row_pitch,
        z * p.host_slice_pitch + y * p.host_row_pitch, p.row_size⟩,
        List.mem_flatten.mpr ⟨_, List.mem_map_of_mem _ (List.mem_range.mpr hz),
          List.mem_map_of_mem _ (List.mem_range.mpr hy)⟩,
        hcov_row_lo, hcov_row_hi⟩]
  have hchosen : img_write_mapped_ops p = whole_region_ops p := by
    unfold img_write_mapped_ops
    rw [if_pos hslice]
  have hread : img_read_mapped_copy img data p (p.device_addr x y z b) =
      img (p.device_addr x y z b) := by
    have hops : img_read_mapped_ops p = whole_region_ops p := by
      unfold img_read_mapped_ops
      rw [hchosen]
      rfl
    unfold img_read_mapped_copy
    rw [hops, run_copies_eq_src_of_self_aligned img _ halign_whole,
      if_pos ⟨⟨0, 0, p.region_size⟩, List.mem_singleton.mpr rfl,
        Nat.zero_le _, hcov_whole⟩]
  refine ⟨haddr, hwhole, hslice_tier, hrow_tier, ?_, hread⟩
  unfold img_write_mapped_copy
  rw [hchosen]
  exact hwhole

/-- Witness for C6 (amended) at the matched-pitch fixture (2×2×2 region of
1-byte pixels, both row pitches 2, both slice pitches 4), pixel
`(1, 1, 1)`, byte 0. -/
theorem C6_amended_tier_equivalence_witness :
    matched_pitch_transfer.device_addr 1 1 1 0 =
      matched_pitch_transfer.host_addr 1 1 1 0 ∧
    run_copies (fun i => i + 10) (fun _ => 0) (whole_region_ops matched_pitch_transfer)
      (matched_pitch_transfer.device_addr 1 1 1 0) =
      (fun i => i + 10) (matched_pitch_transfer.device_addr 1 1 1 0) ∧
    run_copies (fun i => i + 10) (fun _ => 0) (slice_by_slice_ops matched_pitch_transfer)
      (matched_pitch_transfer.device_addr 1 1 1 0) =
      (fun i => i + 10) (matched_pitch_transfer.device_addr 1 1 1 0) ∧
    run_copies (fun i => i + 10) (fun _ => 0) (row_by_row_ops matched_pitch_transfer)
      (matched_pitch_transfer.device_addr 1 1 1 0) =
      (fun i => i + 10) (matched_pitch_transfer.device_addr 1 1 1 0) ∧
    img_write_mapped_copy (fun i => i + 10) (fun _ => 0) matched_pitch_transfer
      (matched_pitch_transfer.device_addr 1 1 1 0) =
      (fun i => i + 10) (matched_pitch_transfer.device_addr 1 1 1 0) ∧
    img_read_mapped_copy (fun _ => 0) (fun i => i + 10) matched_pitch_transfer
      (matched_pitch_transfer.device_addr 1 1 1 0) =
      (fun _ => (0 : ℕ)) (matched_pitch_transfer.device_addr 1 1 1 0) :=
  C6_amended_tier_equivalence matched_pitch_transfer (fun i => i + 10) (fun _ => 0)
    1 1 1 0 (by decide) (by decide) (by decide) (by decide) rfl rfl
    (by decide) (by decide)
    (by norm_num [SIZE_T_MOD, matched_pitch_transfer])

/-- C6 (counterexample): a transfer whose host and device slice pitches agree
(both 4) while the row pitches differ (host 1, device 2), over a
1×2×1 region of 1-byte pixels.  All pitch validity conditions hold and the
code takes the whole-region tier, but that tier writes host byte 2 to the
device address of pixel `(0, 1, 0)`, while the pixel's logical host byte —
the one the row-by-row tier writes there — is host byte 1. -/
theorem C6_counterexample :
    mismatched_row_pitch_transfer.host_slice_pitch =
      mismatched_row_pitch_transfer.slice_pitch ∧
    mismatched_row_pitch_transfer.width * mismatched_row_pitch_transfer.pixel_size ≤
      mismatched_row_pitch_transfer.host_row_pitch ∧
    mismatched_row_pitch_transfer.height * mismatched_row_pitch_transfer.host_row_pitch ≤
      mismatched_row_pitch_transfer.host_slice_pitch ∧
    mismatched_row_pitch_transfer.width * mismatched_row_pitch_transfer.pixel_size ≤
      mismatched_row_pitch_transfer.row_pitch ∧
    mismatched_row_pitch_transfer.height * mismatched_row_pitch_transfer.row_pitch ≤
      mismatched_row_pitch_transfer.slice_pitch ∧
    mismatched_row_pitch_transfer.device_addr 0 1 0 0 = 2 ∧
    mismatched_row_pitch_transfer.host_addr 0 1 0 0 = 1 ∧
    img_write_mapped_ops mismatched_row_pitch_transfer =
      whole_region_ops mismatched_row_pitch_transfer ∧
    img_write_mapped_copy (fun i => i) (fun _ => 99) mismatched_row_pitch_transfer 2 = 2 ∧
    run_copies (fun i => i) (fun _ => 99) (row_by_row_ops mismatched_row_pitch_transfer) 2 = 1 ∧
    (2 : ℕ) ≠ 1 := by
  decide

end SimpleCL
